import Mathlib

/-!
Verification development for the BoostIQ Pro recommendation pipeline.

The embedding follows the TypeScript sources:
  - services/AdvancedAIOptimization.ts (two variants of the module appear in the
    source file; they are embedded as the V1 and V2 definitions below),
  - services/MockAIOptimization.ts,
  - the DeviceMetrics collector module.

JavaScript numbers are modelled as exact rationals; machine floating point
rounding is outside the scope of the stated theorems.  JavaScript exceptions
are modelled with Option/Except.
-/

set_option maxRecDepth 4000

namespace BoostIQ

/-- JavaScript Math.round: round half toward positive infinity. -/
def jsRound (q : ℚ) : ℤ := Int.floor (q + 1/2)

/-- JavaScript Math.floor. -/
def jsFloor (q : ℚ) : ℤ := Int.floor q

/-- The opening brace character. -/
def braceOpen : Char := '\x7b'

/-- The closing brace character. -/
def braceClose : Char := '\x7d'

/-- The double quote character. -/
def dquote : Char := '\x22'

/-- The backslash character. -/
def bslash : Char := '\x5c'

/-! ## JSON values

Model of the values produced by JavaScript JSON.parse.  Object fields are
kept in parse order; duplicate keys are resolved last-wins by `lookupLast`,
matching JSON.parse. -/

inductive JsonValue where
  | null : JsonValue
  | bool (b : Bool) : JsonValue
  | num (q : ℚ) : JsonValue
  | str (s : String) : JsonValue
  | arr (elems : List JsonValue) : JsonValue
  | obj (fields : List (String × JsonValue)) : JsonValue
deriving Repr

/-- Last-wins association lookup, as JSON.parse keeps the last duplicate key. -/
def lookupLast (fields : List (String × JsonValue)) (k : String) : Option JsonValue :=
  fields.foldl (fun acc p => if p.1 = k then some p.2 else acc) none

/-- JavaScript property read `v[k]`: defined for objects, `none` models
reading a missing property (undefined) or reading from a non-object. -/
def jsGet (v : JsonValue) (k : String) : Option JsonValue :=
  match v with
  | .obj fs => lookupLast fs k
  | _ => none

/-- JavaScript truthiness of a possibly-absent JSON value
(undefined, null, false, 0 and the empty string are falsy). -/
def isTruthy : Option JsonValue → Bool
  | none => false
  | some .null => false
  | some (.bool b) => b
  | some (.num q) => decide (q ≠ 0)
  | some (.str s) => !s.isEmpty
  | some (.arr _) => true
  | some (.obj _) => true

/-- `typeof x === "number"` on a possibly-absent JSON value. -/
def isNumVal : Option JsonValue → Bool
  | some (.num _) => true
  | _ => false

/-- `Array.isArray x` on a possibly-absent JSON value. -/
def isArrVal : Option JsonValue → Bool
  | some (.arr _) => true
  | _ => false

/-- `typeof x === "boolean"` on a possibly-absent JSON value. -/
def isBoolVal : Option JsonValue → Bool
  | some (.bool _) => true
  | _ => false

/-- Whether a parsed array element is the JSON null (property access on null
throws a TypeError in JavaScript). -/
def isJsonNull : JsonValue → Bool
  | .null => true
  | _ => false

/-! ## A model of JSON.parse

Recursive descent parser over a character list, with a fuel argument that
makes the recursion structural (so that the kernel can evaluate it).  The
grammar is the JSON grammar accepted by JavaScript JSON.parse: strict commas,
no trailing commas, double-quoted strings with escapes, numbers with optional
fraction and exponent, whitespace limited to space, tab, LF and CR.
Unicode escapes that denote UTF-16 surrogate halves are outside the scope of
the stated theorems (Char.ofNat maps them to the null character). -/

/-- JSON whitespace. -/
def jsonWsChar (c : Char) : Bool :=
  c == ' ' || c == '\t' || c == '\n' || c == '\r'

/-- Skip JSON whitespace. -/
def skipJsonWs : List Char → List Char
  | [] => []
  | c :: cs => if jsonWsChar c then skipJsonWs cs else c :: cs

/-- Hexadecimal digit value. -/
def hexVal (c : Char) : Option ℕ :=
  if '0' ≤ c ∧ c ≤ '9' then some (c.toNat - '0'.toNat)
  else if 'a' ≤ c ∧ c ≤ 'f' then some (c.toNat - 'a'.toNat + 10)
  else if 'A' ≤ c ∧ c ≤ 'F' then some (c.toNat - 'A'.toNat + 10)
  else none

/-- Parse the body of a JSON string literal (after the opening quote),
returning the decoded string and the remaining input. -/
def parseStringBody : ℕ → List Char → List Char → Option (String × List Char)
  | 0, _, _ => none
  | _ + 1, _, [] => none
  | f + 1, acc, c :: rest =>
    if c = dquote then some ((acc.reverse).asString, rest)
    else if c = bslash then
      match rest with
      | [] => none
      | e :: rest2 =>
        if e = dquote then parseStringBody f (dquote :: acc) rest2
        else if e = bslash then parseStringBody f (bslash :: acc) rest2
        else if e = '/' then parseStringBody f ('/' :: acc) rest2
        else if e = 'b' then parseStringBody f ('\x08' :: acc) rest2
        else if e = 'f' then parseStringBody f ('\x0c' :: acc) rest2
        else if e = 'n' then parseStringBody f ('\n' :: acc) rest2
        else if e = 'r' then parseStringBody f ('\r' :: acc) rest2
        else if e = 't' then parseStringBody f ('\t' :: acc) rest2
        else if e = 'u' then
          match rest2 with
          | h1 :: h2 :: h3 :: h4 :: rest3 =>
            match hexVal h1, hexVal h2, hexVal h3, hexVal h4 with
            | some a, some b, some c3, some d =>
              parseStringBody f (Char.ofNat (((a * 16 + b) * 16 + c3) * 16 + d) :: acc) rest3
            | _, _, _, _ => none
          | _ => none
        else none
    else if c.toNat < 32 then none
    else parseStringBody f (c :: acc) rest

/-- Take a maximal run of decimal digits. -/
def takeDigits : List Char → List Char × List Char
  | [] => ([], [])
  | c :: cs =>
    if c.isDigit then
      let (ds, rest) := takeDigits cs
      (c :: ds, rest)
    else ([], c :: cs)

/-- Decimal digits to a natural number. -/
def digitsToNat (ds : List Char) : ℕ :=
  ds.foldl (fun n c => n * 10 + (c.toNat - '0'.toNat)) 0

/-- Parse a JSON number (sign, integer part without leading zeros, optional
fraction, optional exponent). -/
def parseNumber (cs : List Char) : Option (ℚ × List Char) :=
  let (neg, cs1) :=
    match cs with
    | '-' :: t => (true, t)
    | _ => (false, cs)
  match cs1 with
  | [] => none
  | c :: t =>
    let intPart? : Option (ℕ × List Char) :=
      if c = '0' then
        match t with
        | d :: _ => if d.isDigit then none else some (0, t)
        | [] => some (0, t)
      else if c.isDigit then
        let (ds, rest) := takeDigits t
        some (digitsToNat (c :: ds), rest)
      else none
    match intPart? with
    | none => none
    | some (ip, rest1) =>
      let frac? : Option (ℚ × List Char) :=
        match rest1 with
        | '.' :: t2 =>
          let (ds, rest2) := takeDigits t2
          if ds.isEmpty then none
          else some ((digitsToNat ds : ℚ) / ((10 : ℚ) ^ ds.length), rest2)
        | _ => some (0, rest1)
      match frac? with
      | none => none
      | some (fq, rest2) =>
        let exp? : Option (Bool × ℕ × List Char) :=
          match rest2 with
          | e :: t3 =>
            if e = 'e' ∨ e = 'E' then
              let (eneg, t4) :=
                match t3 with
                | '-' :: t5 => (true, t5)
                | '+' :: t5 => (false, t5)
                | _ => (false, t3)
              let (ds, rest3) := takeDigits t4
              if ds.isEmpty then none else some (eneg, digitsToNat ds, rest3)
            else some (false, 0, rest2)
          | [] => some (false, 0, rest2)
        match exp? with
        | none => none
        | some (eneg, ev, rest3) =>
          let base : ℚ := (ip : ℚ) + fq
          let scaled : ℚ := if eneg then base / ((10 : ℚ) ^ ev) else base * ((10 : ℚ) ^ ev)
          some (if neg then -scaled else scaled, rest3)

/-- Parsing modes for the single fueled JSON parser. -/
inductive ParseMode where
  | value : ParseMode
  | arrItems : ParseMode
  | objItems : ParseMode

/-- Results of the single fueled JSON parser. -/
inductive ParseOut where
  | val (v : JsonValue) : ParseOut
  | vals (l : List JsonValue) : ParseOut
  | fields (l : List (String × JsonValue)) : ParseOut

/-- The fueled JSON parser.  In mode `value` it parses one JSON value; in mode
`arrItems` it parses the items of an array after the opening bracket (the
empty-array case is handled by the caller); `objItems` likewise for objects. -/
def parseF : ℕ → ParseMode → List Char → Option (ParseOut × List Char)
  | 0, _, _ => none
  | f + 1, .value, cs =>
    match skipJsonWs cs with
    | [] => none
    | c :: rest =>
      if c = braceOpen then
        match skipJsonWs rest with
        | c2 :: rest2 =>
          if c2 = braceClose then some (.val (.obj []), rest2)
          else
            match parseF f .objItems (c2 :: rest2) with
            | some (.fields l, rest3) => some (.val (.obj l), rest3)
            | _ => none
        | [] => none
      else if c = '[' then
        match skipJsonWs rest with
        | c2 :: rest2 =>
          if c2 = ']' then some (.val (.arr []), rest2)
          else
            match parseF f .arrItems (c2 :: rest2) with
            | some (.vals l, rest3) => some (.val (.arr l), rest3)
            | _ => none
        | [] => none
      else if c = dquote then
        match parseStringBody (rest.length + 1) [] rest with
        | some (s, rest2) => some (.val (.str s), rest2)
        | none => none
      else
        match c :: rest with
        | 't' :: 'r' :: 'u' :: 'e' :: rest2 => some (.val (.bool true), rest2)
        | 'f' :: 'a' :: 'l' :: 's' :: 'e' :: rest2 => some (.val (.bool false), rest2)
        | 'n' :: 'u' :: 'l' :: 'l' :: rest2 => some (.val .null, rest2)
        | other =>
          match parseNumber other with
          | some (q, rest2) => some (.val (.num q), rest2)
          | none => none
  | f + 1, .arrItems, cs =>
    match parseF f .value cs with
    | some (.val v, rest) =>
      (match skipJsonWs rest with
       | ',' :: t =>
         match parseF f .arrItems t with
         | some (.vals l, rest2) => some (.vals (v :: l), rest2)
         | _ => none
       | c :: t =>
         if c = ']' then some (.vals [v], t) else none
       | [] => none)
    | _ => none
  | f + 1, .objItems, cs =>
    match skipJsonWs cs with
    | c :: rest =>
      if c = dquote then
        match parseStringBody (rest.length + 1) [] rest with
        | some (k, rest2) =>
          (match skipJsonWs rest2 with
           | ':' :: t =>
             (match parseF f .value t with
              | some (.val v, rest3) =>
                (match skipJsonWs rest3 with
                 | ',' :: t2 =>
                   (match parseF f .objItems t2 with
                    | some (.fields l, rest4) => some (.fields ((k, v) :: l), rest4)
                    | _ => none)
                 | c2 :: t2 =>
                   if c2 = braceClose then some (.fields [(k, v)], t2) else none
                 | [] => none)
              | _ => none)
           | _ => none)
        | none => none
      else none
    | [] => none

/-- Model of JavaScript `JSON.parse`: parse one JSON value and require only
trailing whitespace after it. -/
def jsonParse (s : String) : Option JsonValue :=
  let cs := s.toList
  match parseF (2 * cs.length + 4) .value cs with
  | some (.val v, rest) => if (skipJsonWs rest).isEmpty then some v else none
  | _ => none

/-! ## parseAIResponse (services/AdvancedAIOptimization.ts)

The extraction regex, whitespace normalization, repair heuristics, retry and
validation of `parseAIResponse`.  Both variants of the source module contain
the same function body (they differ only in logging), so one embedding
serves both. -/

/-- The JavaScript whitespace class (the characters relevant after newline
removal; the exotic Unicode space characters are handled alike). -/
def jsWsChar (c : Char) : Bool :=
  c == ' ' || c == '\t' || c == '\n' || c == '\r' ||
  c == '\x0b' || c == '\x0c' || c == '\xa0'

/-- Last index of a character in a list (0-based). -/
def lastIdxAux (c : Char) : List Char → ℕ → Option ℕ
  | [], _ => none
  | x :: rest, i =>
    match lastIdxAux c rest (i + 1) with
    | some j => some j
    | none => if x = c then some i else none

/-- The extraction regex of the source, `\[[\s\S]*\]|\{[\s\S]*\}`: the match
starts at the first bracket that has a closer of the matching kind later in
the text, and greedily extends to the last such closer. -/
def extractScan : List Char → Option (List Char)
  | [] => none
  | c :: rest =>
    if c = '[' then
      match lastIdxAux ']' rest 0 with
      | some j => some (c :: rest.take (j + 1))
      | none => extractScan rest
    else if c = braceOpen then
      match lastIdxAux braceClose rest 0 with
      | some j => some (c :: rest.take (j + 1))
      | none => extractScan rest
    else extractScan rest

/-- `content.match(/\[[\s\S]*\]|\{[\s\S]*\}/)`. -/
def extractJson (content : String) : Option String :=
  (extractScan content.toList).map List.asString

/-- `.replace(/(\r\n|\n|\r)/gm, '')`: remove every CR and LF. -/
def removeNewlines (cs : List Char) : List Char :=
  cs.filter (fun c => !(c == '\n' || c == '\r'))

/-- `.replace(/\s+/g, ' ')`: collapse every whitespace run to one space. -/
def collapseWs : List Char → List Char
  | [] => []
  | [c] => if jsWsChar c then [' '] else [c]
  | c1 :: c2 :: rest =>
    if jsWsChar c1 && jsWsChar c2 then collapseWs (c2 :: rest)
    else (if jsWsChar c1 then ' ' else c1) :: collapseWs (c2 :: rest)

/-- `.trim()`. -/
def trimWs (cs : List Char) : List Char :=
  ((cs.dropWhile (fun c => jsWsChar c)).reverse.dropWhile (fun c => jsWsChar c)).reverse

/-- The whitespace normalization applied to the extracted JSON substring:
remove newlines, collapse whitespace runs, trim. -/
def normalizeWs (s : String) : String :=
  (trimWs (collapseWs (removeNewlines s.toList))).asString

/-- After a given list, skip whitespace and require the given character;
return the suffix after it. -/
def wsThen (target : Char) : List Char → Option (List Char)
  | [] => none
  | c :: rest =>
    if jsWsChar c then wsThen target rest
    else if c = target then some rest else none

/-- Fueled scanner for `.replace(/}\s*{/g, '},{')`. -/
def fixSepF : ℕ → List Char → List Char
  | 0, cs => cs
  | _ + 1, [] => []
  | f + 1, c :: rest =>
    if c = braceClose then
      match wsThen braceOpen rest with
      | some suffix => braceClose :: ',' :: braceOpen :: fixSepF f suffix
      | none => c :: fixSepF f rest
    else c :: fixSepF f rest

/-- Repair (a): insert a comma between adjacent object boundaries. -/
def fixObjectSeparators (s : String) : String :=
  (fixSepF s.toList.length s.toList).asString

/-- Fueled scanner for `.replace(/,\s*X/g, 'X')` with `X` the given closer. -/
def fixTrailF (close : Char) : ℕ → List Char → List Char
  | 0, cs => cs
  | _ + 1, [] => []
  | f + 1, c :: rest =>
    if c = ',' then
      match wsThen close rest with
      | some suffix => close :: fixTrailF close f suffix
      | none => c :: fixTrailF close f rest
    else c :: fixTrailF close f rest

/-- Repair (b): remove trailing commas before a closing bracket. -/
def fixTrailingArrComma (s : String) : String :=
  (fixTrailF ']' s.toList.length s.toList).asString

/-- Repair (c): remove trailing commas before a closing brace. -/
def fixTrailingObjComma (s : String) : String :=
  (fixTrailF braceClose s.toList.length s.toList).asString

/-- Repair (d): wrap in brackets if the text does not start with one. -/
def wrapIfNoBracket (s : String) : String :=
  if s.startsWith "[" then s else "[" ++ s ++ "]"

/-- The full repair applied on parse failure, in source order:
separators, then trailing commas before brackets, then trailing commas
before braces, then wrapping. -/
def repairJson (s : String) : String :=
  wrapIfNoBracket (fixTrailingObjComma (fixTrailingArrComma (fixObjectSeparators s)))

/-- The direct parse attempt: parse as an array when the text starts with a
bracket, otherwise parse one value and wrap it in a one-element list. -/
def directParse (s : String) : Option (List JsonValue) :=
  if s.startsWith "[" then
    match jsonParse s with
    | some (.arr l) => some l
    | some v => some [v]
    | none => none
  else
    (jsonParse s).map (fun v => [v])

/-- The retry parse after repair: the repaired text is parsed and used as an
array (it starts with a bracket whenever the repair wrapped it, and the
source casts the result to an array without further checks). -/
def repairedArrayParse (s : String) : Option (List JsonValue) :=
  match jsonParse s with
  | some (.arr l) => some l
  | some v => some [v]
  | none => none

/-- The two-phase parse of `parseAIResponse`: direct parse, then one repaired
retry. -/
def tryParsePhase (s : String) : Option (List JsonValue) :=
  match directParse s with
  | some l => some l
  | none => repairedArrayParse (repairJson s)

/-- The validity filter of `parseAIResponse`, exactly as in the source:
truthiness of `type` and `description`, `typeof impact === "number"`,
`Array.isArray(actions)`, and both flags of boolean type. -/
def isValidOpt (v : JsonValue) : Bool :=
  isTruthy (jsGet v "type") &&
  isTruthy (jsGet v "description") &&
  isNumVal (jsGet v "impact") &&
  isArrVal (jsGet v "actions") &&
  isBoolVal (jsGet v "requiresPermission") &&
  isBoolVal (jsGet v "isAutomated")

/-- The validation stage of `parseAIResponse`: filter to the records passing
`isValidOpt` and fail when none remain.  A null element makes the JavaScript
filter callback throw a TypeError (property access on null), which the outer
catch turns into a parse failure; the TypeError text is engine specific and
is modelled by a fixed string. -/
def validatePhase (parsed : List JsonValue) : Except String (List JsonValue) :=
  if parsed.any isJsonNull then
    .error "Failed to parse AI response: Cannot read properties of null"
  else
    let valid := parsed.filter isValidOpt
    if valid.isEmpty then
      .error "Failed to parse AI response: No valid optimizations found in response"
    else .ok valid

/-- The candidate list reaching the validation stage, when extraction and
parsing succeed. -/
def parsedCandidates (content : String) : Option (List JsonValue) :=
  (extractJson content).bind (fun m => tryParsePhase (normalizeWs m))

/-- `parseAIResponse` (the function is identical in both source variants up
to logging).  The JSON.parse SyntaxError text is engine specific and is
modelled by a fixed string. -/
def parseAIResponse (content : String) : Except String (List JsonValue) :=
  match extractJson content with
  | none => .error "Failed to parse AI response: No JSON content found in response"
  | some m =>
    match tryParsePhase (normalizeWs m) with
    | none => .error "Failed to parse AI response: Unexpected token in JSON"
    | some parsed => validatePhase parsed

/-! ## Recommendations and results (services/AdvancedAIOptimization.ts) -/

/-- The SystemAnalysis interface: one optimization recommendation.
The priority field is kept as a free string because the parsed JSON is cast,
not checked, in the source. -/
structure SystemAnalysis where
  type : String
  description : String
  impact : ℚ
  priority : String
  actions : List String
  requiresPermission : Bool
  isAutomated : Bool
deriving Repr, DecidableEq

/-- The gain strings computed by `calculateGains`. -/
structure Gains where
  memoryGain : String
  batteryGain : String
  storageGain : String
deriving Repr, DecidableEq

/-- The summary block of an AdvancedOptimizationResult. -/
structure OptSummary where
  totalImpact : ℚ
  highPriorityCount : ℕ
  automatedActionsCount : ℕ
  memoryGain : String
  batteryGain : String
  storageGain : String
deriving Repr, DecidableEq

/-- The AdvancedOptimizationResult interface. -/
structure AdvancedOptimizationResult where
  success : Bool
  message : String
  timestamp : String
  optimizations : List SystemAnalysis
  summary : OptSummary
deriving Repr, DecidableEq

/-- JavaScript `hay.toLowerCase().includes(needle)` on character lists. -/
def listHasSub (needle : List Char) : List Char → Bool
  | [] => needle.isEmpty
  | c :: rest => needle.isPrefixOf (c :: rest) || listHasSub needle rest

/-- `opt.type.toLowerCase().includes(needle)` (ASCII lowering, as the three
needles of the source are ASCII). -/
def typeHas (o : SystemAnalysis) (needle : String) : Bool :=
  listHasSub needle.toList (o.type.toLower.toList)

/-- One step of the forEach accumulation in `calculateGains`:
the running (memory, battery, storage) impacts after one recommendation. -/
def gainsStep (acc : ℚ × ℚ × ℚ) (o : SystemAnalysis) : ℚ × ℚ × ℚ :=
  if typeHas o "memory" then (acc.1 + o.impact, acc.2.1, acc.2.2)
  else if typeHas o "battery" then (acc.1, acc.2.1 + o.impact, acc.2.2)
  else if typeHas o "storage" then (acc.1, acc.2.1, acc.2.2 + o.impact)
  else
    (acc.1 + o.impact * (1/2), acc.2.1 + o.impact * (3/10), acc.2.2 + o.impact * (1/5))

/-- `calculateGains` (identical in both source variants): accumulate the
three weighted impacts, then convert to readable strings. -/
def calculateGains (optimizations : List SystemAnalysis) : Gains :=
  let acc := optimizations.foldl gainsStep (0, 0, 0)
  { memoryGain := toString (jsRound (acc.1 * 3)) ++ "MB"
    batteryGain := toString (jsRound (acc.2.1 * (1/4))) ++ "%"
    storageGain := toString (jsRound (acc.2.2 * 10)) ++ "MB" }

/-- The success-path result assembly of the second source variant
(lines 608-630): plain sum of impacts, filter counts, gains. -/
def assembleSuccess (optimizations : List SystemAnalysis) (ts : String) :
    AdvancedOptimizationResult :=
  let totalImpact : ℚ := optimizations.foldl (fun sum o => sum + o.impact) 0
  let highPriorityCount := (optimizations.filter (fun o => o.priority == "high")).length
  let automatedActionsCount := (optimizations.filter (fun o => o.isAutomated)).length
  let gains := calculateGains optimizations
  { success := true
    message := "AI optimized"
    timestamp := ts
    optimizations := optimizations
    summary :=
      { totalImpact := totalImpact
        highPriorityCount := highPriorityCount
        automatedActionsCount := automatedActionsCount
        memoryGain := gains.memoryGain
        batteryGain := gains.batteryGain
        storageGain := gains.storageGain } }

/-- The catch-block result of the FIRST source variant (lines 336-357):
a single synthetic Error Recovery recommendation embedding the error text. -/
def errorFallbackResultV1 (errMsg ts : String) : AdvancedOptimizationResult :=
  { success := false
    message := "AI response not available: " ++ errMsg
    timestamp := ts
    optimizations :=
      [{ type := "Error Recovery"
         description := "An error occurred: " ++ errMsg
         impact := 5
         priority := "medium"
         actions := ["Try again later", "Check internet connection"]
         requiresPermission := false
         isAutomated := false }]
    summary :=
      { totalImpact := 5
        highPriorityCount := 0
        automatedActionsCount := 0
        memoryGain := "0MB"
        batteryGain := "0%"
        storageGain := "0MB" } }

/-- The catch-block result of the SECOND source variant (lines 635-656):
a single Basic System Optimization recommendation with a fixed message. -/
def fallbackResultV2 (ts : String) : AdvancedOptimizationResult :=
  { success := false
    message := "AI response not available right now"
    timestamp := ts
    optimizations :=
      [{ type := "Basic System Optimization"
         description := "General performance optimization based on system analysis"
         impact := 15
         priority := "medium"
         actions := ["Clear system cache", "Close inactive apps"]
         requiresPermission := false
         isAutomated := true }]
    summary :=
      { totalImpact := 15
        highPriorityCount := 0
        automatedActionsCount := 1
        memoryGain := "75MB"
        batteryGain := "5%"
        storageGain := "150MB" } }

/-- The Expo Snack mock result of the first source variant (lines 304-325). -/
def snackMockResult (ts : String) : AdvancedOptimizationResult :=
  { success := true
    message := "Mock AI optimization (Expo Snack compatibility)"
    timestamp := ts
    optimizations :=
      [{ type := "Memory Optimization"
         description :=
           "This is mock data for Expo Snack environment since API calls may be restricted"
         impact := 25
         priority := "high"
         actions := ["Close high-memory apps", "Clear app caches"]
         requiresPermission := false
         isAutomated := true }]
    summary :=
      { totalImpact := 25
        highPriorityCount := 1
        automatedActionsCount := 1
        memoryGain := "120MB"
        batteryGain := "7%"
        storageGain := "250MB" } }

/-- Models the unchecked TypeScript cast of a validated parsed record to
SystemAnalysis, field access by field access: a string field is read as the
string, any other shape reads as the JavaScript result of the later uses
(absent priority compares unequal to any string, which the empty string also
does; records whose truthy `type` is not a string would instead throw inside
calculateGains and are outside the scope of the stated theorems). -/
def toSystemAnalysis (v : JsonValue) : SystemAnalysis :=
  { type := match jsGet v "type" with | some (.str s) => s | _ => ""
    description := match jsGet v "description" with | some (.str s) => s | _ => ""
    impact := match jsGet v "impact" with | some (.num q) => q | _ => 0
    priority := match jsGet v "priority" with | some (.str s) => s | _ => ""
    actions :=
      match jsGet v "actions" with
      | some (.arr l) => l.filterMap (fun x => match x with | .str s => some s | _ => none)
      | _ => []
    requiresPermission := match jsGet v "requiresPermission" with | some (.bool b) => b | _ => false
    isAutomated := match jsGet v "isAutomated" with | some (.bool b) => b | _ => false }

/-! ## The LLM gateway (timeout race)

The race of the first variant (lines 262-295) is modelled denotationally:
the outcome is a function of the settle time of the network promise and its
result; the timer rejects at 15000 ms, and whichever settles first wins.
The boundary case of exactly equal settle times depends on event-loop
ordering and is outside the stated theorems.  The second variant
(lines 570-606) has no timer: it awaits the network call directly. -/

/-- Result of the network promise: either the reply text or a rejection. -/
inductive ApiOutcome where
  | success (text : String) : ApiOutcome
  | failure (msg : String) : ApiOutcome
deriving Repr, DecidableEq

/-- The Promise.race of the first variant. -/
def raceOutcomeV1 (apiTime : ℚ) (api : ApiOutcome) : ApiOutcome :=
  if apiTime < 15000 then api
  else .failure "API request timed out after 15 seconds"

/-- The gateway call of the first variant: the race, with the catch block
wrapping any rejection message. -/
def gatewayV1 (apiTime : ℚ) (api : ApiOutcome) : Except String String :=
  match raceOutcomeV1 apiTime api with
  | .success t => .ok t
  | .failure m => .error ("API request failed: " ++ m)

/-- The gateway call of the second variant: a plain await with no timer and
no local catch; the settle time does not influence the outcome. -/
def gatewayV2 (_apiTime : ℚ) (api : ApiOutcome) : Except String String :=
  match api with
  | .success t => .ok t
  | .failure m => .error m

/-! ## The two assembler pipelines -/

/-- `getAdvancedAIOptimizations` of the FIRST source variant, as a function
of the gateway outcome and the Expo Snack environment test: a gateway
failure reaches the catch block; a gateway success returns the Snack mock
in the Snack environment and otherwise falls through the truncated success
path, returning undefined (modelled by `none`). -/
def getAdvancedAIOptimizationsV1 (isSnack : Bool) (gw : Except String String)
    (ts : String) : Option AdvancedOptimizationResult :=
  match gw with
  | .error m => some (errorFallbackResultV1 m ts)
  | .ok _ => if isSnack then some (snackMockResult ts) else none

/-- `getAdvancedAIOptimizations` of the SECOND source variant, as a function
of the gateway outcome: parse the reply, assemble the success result, and
fall back on any failure. -/
def getAdvancedAIOptimizationsV2 (gw : Except String String) (ts : String) :
    AdvancedOptimizationResult :=
  match gw with
  | .error _ => fallbackResultV2 ts
  | .ok content =>
    match parseAIResponse content with
    | .error _ => fallbackResultV2 ts
    | .ok records => assembleSuccess (records.map toSystemAnalysis) ts

/-! ## The device metrics collector (DeviceMetrics module)

Each underlying platform reading may throw or return a value; a throwing
read is modelled by `ProviderRead.err`.  The two simulated random draws are
modelled by their floored values, `Fin 40` and `Fin 50`, matching
`Math.floor(Math.random() * 40)` and `Math.floor(Math.random() * 50)`.
`outerThrow` models the whole pipeline throwing unexpectedly at a point not
covered by the inner field-level catches, which lands in the outer catch
block.  Division by a zero total (JavaScript NaN) is outside the scope of
the stated theorems; the rational division defaults it. -/

/-- One platform reading: a returned value or a throw. -/
inductive ProviderRead (α : Type) where
  | ok (v : α) : ProviderRead α
  | err : ProviderRead α
deriving Repr, DecidableEq

/-- The expo-battery BatteryState enum. -/
inductive BatteryState where
  | charging : BatteryState
  | full : BatteryState
  | unplugged : BatteryState
  | unknown : BatteryState
deriving Repr, DecidableEq

/-- The AppInfo interface. -/
structure AppInfo where
  name : String
  packageName : String
  memoryUsage : ℚ
  batteryDrain : ℚ
  backgroundTime : ℚ
deriving Repr, DecidableEq

/-- The DeviceMetrics interface.  The four percentage-like fields are the
integers produced by Math.round / Math.floor in the source. -/
structure DeviceMetrics where
  cpuUsage : ℤ
  memoryUsage : ℤ
  batteryLevel : ℤ
  batteryState : String
  storageUsed : ℤ
  totalStorage : ℚ
  deviceName : String
  osVersion : String
  installedApps : List AppInfo
deriving Repr, DecidableEq

/-- The behaviour of every platform provider consulted during one
collection, plus the two random draws. -/
structure CollectEnv where
  modelName : ProviderRead (Option String)
  osVersionRead : ProviderRead (Option String)
  osName : ProviderRead (Option String)
  batteryLevelRead : ProviderRead ℚ
  batteryStateRead : ProviderRead BatteryState
  freeDiskRead : ProviderRead ℚ
  totalDiskRead : ProviderRead ℚ
  appNameRead : ProviderRead (Option String)
  appIdRead : ProviderRead (Option String)
  isAndroid : Bool
  cpuRand : Fin 40
  memRand : Fin 50
  outerThrow : Bool

/-- The fixed catalog of simulated applications. -/
def simulatedApps : List AppInfo :=
  [{ name := "Social Media App", packageName := "com.example.social",
     memoryUsage := 245, batteryDrain := 5/2, backgroundTime := 120 },
   { name := "Maps Navigation", packageName := "com.example.maps",
     memoryUsage := 180, batteryDrain := 21/5, backgroundTime := 30 },
   { name := "Email Client", packageName := "com.example.mail",
     memoryUsage := 120, batteryDrain := 4/5, backgroundTime := 240 },
   { name := "Weather App", packageName := "com.example.weather",
     memoryUsage := 75, batteryDrain := 3/10, backgroundTime := 15 },
   { name := "Game App", packageName := "com.example.game",
     memoryUsage := 320, batteryDrain := 51/10, backgroundTime := 60 }]

/-- The host application entry appended by `getInstalledApps`: its name and
id come from the application registry on Android when those reads succeed
and are truthy, and take the fixed defaults otherwise. -/
def hostApp (e : CollectEnv) : AppInfo :=
  let np : String × String :=
    if e.isAndroid then
      match e.appNameRead with
      | .err => ("BoostIQ Pro", "com.boostiq.pro")
      | .ok nv =>
        let n := match nv with
          | some s => if s.isEmpty then "BoostIQ Pro" else s
          | none => "BoostIQ Pro"
        match e.appIdRead with
        | .err => (n, "com.boostiq.pro")
        | .ok pv =>
          (n, match pv with
              | some s => if s.isEmpty then "com.boostiq.pro" else s
              | none => "com.boostiq.pro")
    else ("BoostIQ Pro", "com.boostiq.pro")
  { name := np.1, packageName := np.2,
    memoryUsage := 85, batteryDrain := 7/10, backgroundTime := 0 }

/-- `getInstalledApps`: the catalog plus the host application, in order. -/
def getInstalledApps (e : CollectEnv) : List AppInfo :=
  simulatedApps ++ [hostApp e]

/-- The battery block: reads level then state inside one try; the catch sets
the level to 0.75 and leaves the state at its initial UNKNOWN (a state-read
throw therefore also discards a level already read). -/
def batteryPair (e : CollectEnv) : ℚ × BatteryState :=
  match e.batteryLevelRead, e.batteryStateRead with
  | .ok l, .ok s => (l, s)
  | .ok _, .err => (3/4, .unknown)
  | .err, _ => (3/4, .unknown)

/-- The switch from BatteryState to its string. -/
def batteryStateString : BatteryState → String
  | .charging => "charging"
  | .full => "full"
  | .unplugged => "unplugged"
  | .unknown => "unknown"

/-- The storage block: (totalStorage, storagePercentUsed).  The catch keeps
the initial placeholder total of 1 and defaults the percentage to 50. -/
def storagePair (e : CollectEnv) : ℚ × ℚ :=
  match e.freeDiskRead, e.totalDiskRead with
  | .ok f, .ok t => (t, (t - f) / t * 100)
  | .ok _, .err => (1, 50)
  | .err, _ => (1, 50)

/-- The device name block. -/
def deviceNameOf (e : CollectEnv) : String :=
  match e.modelName with
  | .err => "Unknown Device"
  | .ok nv =>
    match nv with
    | some s => if s.isEmpty then "Unknown Device" else s
    | none => "Unknown Device"

/-- The OS version block: `Device.osVersion || Device.osName + suffix`
inside one try whose catch keeps the initial Unknown OS (a null osName
concatenates as the string null, as in JavaScript). -/
def osVersionOf (e : CollectEnv) : String :=
  match e.osVersionRead with
  | .err => "Unknown OS"
  | .ok vv =>
    let fromName : String :=
      match e.osName with
      | .err => "Unknown OS"
      | .ok (some n) => n ++ " (version unknown)"
      | .ok none => "null (version unknown)"
    match vv with
    | some s => if s.isEmpty then fromName else s
    | none => fromName

/-- The hard-coded snapshot returned by the outer catch block. -/
def fallbackMetrics (e : CollectEnv) : DeviceMetrics :=
  { cpuUsage := 30
    memoryUsage := 45
    batteryLevel := 75
    batteryState := "unknown"
    storageUsed := 50
    totalStorage := 128 * 1024 * 1024 * 1024
    deviceName := "Android Device"
    osVersion := "Android"
    installedApps := getInstalledApps e }

/-- `collectDeviceMetrics`.  The function is total: every inner reading is
recovered by a field default, and an unexpected throw of the pipeline as a
whole (`outerThrow`) is recovered by the outer catch. -/
def collectDeviceMetrics (e : CollectEnv) : DeviceMetrics :=
  if e.outerThrow then fallbackMetrics e
  else
    let (lvl, st) := batteryPair e
    let (total, pct) := storagePair e
    { cpuUsage := 20 + (e.cpuRand : ℤ)
      memoryUsage := 30 + (e.memRand : ℤ)
      batteryLevel := jsRound (lvl * 100)
      batteryState := batteryStateString st
      storageUsed := jsRound pct
      totalStorage := total
      deviceName := deviceNameOf e
      osVersion := osVersionOf e
      installedApps := getInstalledApps e }

/-! ## The mock service (services/MockAIOptimization.ts) -/

/-- Mock memory recommendation for memoryUsage above 70. -/
def mockMemHigh : SystemAnalysis :=
  { type := "Memory Optimization"
    description :=
      "Your device is running low on memory. Closing unused apps can improve performance."
    impact := 25
    priority := "high"
    actions := ["Close background apps", "Clear app caches",
                "Restart memory-intensive applications"]
    requiresPermission := false
    isAutomated := true }

/-- Mock memory recommendation for memoryUsage above 50. -/
def mockMemMed : SystemAnalysis :=
  { type := "Memory Management"
    description := "Memory usage is moderate but can be optimized for better performance."
    impact := 15
    priority := "medium"
    actions := ["Close unused apps", "Clear temporary files"]
    requiresPermission := false
    isAutomated := true }

/-- Mock battery recommendation for batteryLevel below 30. -/
def mockBattery : SystemAnalysis :=
  { type := "Battery Conservation"
    description := "Battery level is low. Implementing power saving measures is recommended."
    impact := 20
    priority := "high"
    actions := ["Enable battery saving mode", "Reduce screen brightness",
                "Close power-intensive applications"]
    requiresPermission := true
    isAutomated := false }

/-- Mock storage recommendation for storageUsed above 85. -/
def mockStorage : SystemAnalysis :=
  { type := "Storage Cleanup"
    description := "Your device storage is nearly full which may affect performance."
    impact := 18
    priority := "medium"
    actions := ["Remove unused applications", "Clear app caches", "Delete temporary files"]
    requiresPermission := true
    isAutomated := false }

/-- The always-added general mock recommendation. -/
def mockGeneral : SystemAnalysis :=
  { type := "General Optimization"
    description := "Regular maintenance helps keep your device running smoothly."
    impact := 10
    priority := "low"
    actions := ["Update system software", "Restart device weekly"]
    requiresPermission := false
    isAutomated := true }

/-- `getMockAIOptimizations`: build the recommendation list, the running
totalImpact and highPriorityCount exactly as the source pushes and
increments them, then assemble the result with the capped total. -/
def getMockAIOptimizations (m : DeviceMetrics) (ts : String) :
    AdvancedOptimizationResult :=
  let s1 : List SystemAnalysis × ℚ × ℕ :=
    if m.memoryUsage > 70 then ([mockMemHigh], 25, 1)
    else if m.memoryUsage > 50 then ([mockMemMed], 15, 0)
    else ([], 0, 0)
  let s2 : List SystemAnalysis × ℚ × ℕ :=
    if m.batteryLevel < 30 then (s1.1 ++ [mockBattery], s1.2.1 + 20, s1.2.2 + 1)
    else s1
  let s3 : List SystemAnalysis × ℚ :=
    if m.storageUsed > 85 then (s2.1 ++ [mockStorage], s2.2.1 + 18)
    else (s2.1, s2.2.1)
  let recommendations := s3.1 ++ [mockGeneral]
  let totalImpact := s3.2 + 10
  { success := true
    message := "AI optimization completed (using mock data for compatibility)"
    timestamp := ts
    optimizations := recommendations
    summary :=
      { totalImpact := min totalImpact 100
        highPriorityCount := s2.2.2
        automatedActionsCount := (recommendations.filter (fun r => r.isAutomated)).length
        memoryGain := toString (jsFloor ((m.memoryUsage : ℚ) / 100 * 300)) ++ "MB"
        batteryGain := toString (jsFloor (15 - (m.batteryLevel : ℚ) / 10)) ++ "%"
        storageGain :=
          toString (jsFloor ((m.storageUsed : ℚ) / 100 * (3/2) * 1024)) ++ "MB" } }

/-! ## Specification-side definitions

These definitions follow the wording of the specification, to be compared
with the source-derived definitions above. -/

/-- The sum of the impact values of a recommendation list. -/
def sumImpacts (l : List SystemAnalysis) : ℚ :=
  (l.map SystemAnalysis.impact).sum

/-- The summary-count invariant of the specification: highPriorityCount
counts the high-priority recommendations and automatedActionsCount the
automated ones. -/
def countsOk (r : AdvancedOptimizationResult) : Prop :=
  r.summary.highPriorityCount = r.optimizations.countP (fun o => o.priority == "high") ∧
  r.summary.automatedActionsCount = r.optimizations.countP (fun o => o.isAutomated)

/-- Whether a possibly-absent field value is a non-empty string. -/
def strNonempty : Option JsonValue → Bool
  | some (.str s) => !s.isEmpty
  | _ => false

/-- Whether a possibly-absent field value is absent, null, or a string (the
shapes on which truthiness coincides with being a non-empty string). -/
def stringishOpt : Option JsonValue → Bool
  | none => true
  | some .null => true
  | some (.str _) => true
  | _ => false

/-- Validity of a parsed record in the words of the specification: type and
description are non-empty strings, impact is a number, actions is an array
(possibly empty), and both flags are present booleans. -/
def specValidRecommendation (v : JsonValue) : Bool :=
  strNonempty (jsGet v "type") &&
  strNonempty (jsGet v "description") &&
  isNumVal (jsGet v "impact") &&
  isArrVal (jsGet v "actions") &&
  isBoolVal (jsGet v "requiresPermission") &&
  isBoolVal (jsGet v "isAutomated")

/-- A record whose type and description fields are absent, null, or strings. -/
def typeDescStringish (v : JsonValue) : Bool :=
  stringishOpt (jsGet v "type") && stringishOpt (jsGet v "description")

/-- The memory-bucket weight of one recommendation in the words of the
specification (first matching bucket wins; an unmatched type contributes
half its impact to memory). -/
def memoryWeight (o : SystemAnalysis) : ℚ :=
  if typeHas o "memory" then o.impact
  else if typeHas o "battery" then 0
  else if typeHas o "storage" then 0
  else o.impact * (1/2)

/-- The battery-bucket weight of one recommendation. -/
def batteryWeight (o : SystemAnalysis) : ℚ :=
  if typeHas o "memory" then 0
  else if typeHas o "battery" then o.impact
  else if typeHas o "storage" then 0
  else o.impact * (3/10)

/-- The storage-bucket weight of one recommendation. -/
def storageWeight (o : SystemAnalysis) : ℚ :=
  if typeHas o "memory" then 0
  else if typeHas o "battery" then 0
  else if typeHas o "storage" then o.impact
  else o.impact * (1/5)

/-- The memory bucket as a sum of per-recommendation weights. -/
def memoryImpactSpec (l : List SystemAnalysis) : ℚ := (l.map memoryWeight).sum

/-- The battery bucket as a sum of per-recommendation weights. -/
def batteryImpactSpec (l : List SystemAnalysis) : ℚ := (l.map batteryWeight).sum

/-- The storage bucket as a sum of per-recommendation weights. -/
def storageImpactSpec (l : List SystemAnalysis) : ℚ := (l.map storageWeight).sum


/-! ## Concrete inputs and environments used by the theorems -/

/-- A gateway reply whose two valid records carry impact 60 each. -/
def contentC1 : String :=
  "[\x7b\x22type\x22:\x22t1\x22,\x22description\x22:\x22d\x22,\x22impact\x22:60,\x22priority\x22:\x22low\x22,\x22actions\x22:[],\x22requiresPermission\x22:false,\x22isAutomated\x22:false\x7d,\x7b\x22type\x22:\x22t2\x22,\x22description\x22:\x22d\x22,\x22impact\x22:60,\x22priority\x22:\x22low\x22,\x22actions\x22:[],\x22requiresPermission\x22:false,\x22isAutomated\x22:false\x7d]"

/-- A reply whose single record has the number 1 in its type field:
truthy for the source filter, but not a non-empty string. -/
def contentC4 : String :=
  "[\x7b\x22type\x22:1,\x22description\x22:\x22d\x22,\x22impact\x22:3,\x22actions\x22:[],\x22requiresPermission\x22:false,\x22isAutomated\x22:false\x7d]"

/-- The parsed record of `contentC4`. -/
def recC4 : JsonValue :=
  .obj [("type", .num 1), ("description", .str "d"), ("impact", .num 3),
        ("actions", .arr []), ("requiresPermission", .bool false),
        ("isAutomated", .bool false)]

/-- First record of the pattern-free C5 examples. -/
def recC5X : JsonValue :=
  .obj [("type", .str "t1"), ("description", .str "d1"), ("impact", .num 1),
        ("priority", .str "low"), ("actions", .arr []),
        ("requiresPermission", .bool false), ("isAutomated", .bool true)]

/-- Second record of the C5 examples. -/
def recC5Y : JsonValue :=
  .obj [("type", .str "t2"), ("description", .str "d2"), ("impact", .num 2),
        ("priority", .str "low"), ("actions", .arr []),
        ("requiresPermission", .bool false), ("isAutomated", .bool true)]

/-- Well-formed two-record array whose fields contain none of the repair
patterns. -/
def wellSafeC5 : String :=
  "[\x7b\x22type\x22:\x22t1\x22,\x22description\x22:\x22d1\x22,\x22impact\x22:1,\x22priority\x22:\x22low\x22,\x22actions\x22:[],\x22requiresPermission\x22:false,\x22isAutomated\x22:true\x7d,\x7b\x22type\x22:\x22t2\x22,\x22description\x22:\x22d2\x22,\x22impact\x22:2,\x22priority\x22:\x22low\x22,\x22actions\x22:[],\x22requiresPermission\x22:false,\x22isAutomated\x22:true\x7d]"

/-- `wellSafeC5` with the separator comma between the two objects removed. -/
def missSafeC5 : String :=
  "[\x7b\x22type\x22:\x22t1\x22,\x22description\x22:\x22d1\x22,\x22impact\x22:1,\x22priority\x22:\x22low\x22,\x22actions\x22:[],\x22requiresPermission\x22:false,\x22isAutomated\x22:true\x7d\x7b\x22type\x22:\x22t2\x22,\x22description\x22:\x22d2\x22,\x22impact\x22:2,\x22priority\x22:\x22low\x22,\x22actions\x22:[],\x22requiresPermission\x22:false,\x22isAutomated\x22:true\x7d]"

/-- `wellSafeC5` with a trailing comma before the closing bracket. -/
def trailSafeC5 : String :=
  "[\x7b\x22type\x22:\x22t1\x22,\x22description\x22:\x22d1\x22,\x22impact\x22:1,\x22priority\x22:\x22low\x22,\x22actions\x22:[],\x22requiresPermission\x22:false,\x22isAutomated\x22:true\x7d,\x7b\x22type\x22:\x22t2\x22,\x22description\x22:\x22d2\x22,\x22impact\x22:2,\x22priority\x22:\x22low\x22,\x22actions\x22:[],\x22requiresPermission\x22:false,\x22isAutomated\x22:true\x7d,]"

/-- First record of the C5 counterexample, whose type contains an adjacent
object-boundary pattern. -/
def recC5A : JsonValue :=
  .obj [("type", .str "a\x7d\x7bb"), ("description", .str "d1"), ("impact", .num 1),
        ("priority", .str "low"), ("actions", .arr []),
        ("requiresPermission", .bool false), ("isAutomated", .bool true)]

/-- The same record after the separator repair rewrote its type string. -/
def recC5Aprime : JsonValue :=
  .obj [("type", .str "a\x7d,\x7bb"), ("description", .str "d1"), ("impact", .num 1),
        ("priority", .str "low"), ("actions", .arr []),
        ("requiresPermission", .bool false), ("isAutomated", .bool true)]

/-- Well-formed two-record array whose first type field contains the
object-boundary pattern. -/
def wellC5 : String :=
  "[\x7b\x22type\x22:\x22a\x7d\x7bb\x22,\x22description\x22:\x22d1\x22,\x22impact\x22:1,\x22priority\x22:\x22low\x22,\x22actions\x22:[],\x22requiresPermission\x22:false,\x22isAutomated\x22:true\x7d,\x7b\x22type\x22:\x22t2\x22,\x22description\x22:\x22d2\x22,\x22impact\x22:2,\x22priority\x22:\x22low\x22,\x22actions\x22:[],\x22requiresPermission\x22:false,\x22isAutomated\x22:true\x7d]"

/-- `wellC5` with the separator comma between the two objects removed. -/
def missC5 : String :=
  "[\x7b\x22type\x22:\x22a\x7d\x7bb\x22,\x22description\x22:\x22d1\x22,\x22impact\x22:1,\x22priority\x22:\x22low\x22,\x22actions\x22:[],\x22requiresPermission\x22:false,\x22isAutomated\x22:true\x7d\x7b\x22type\x22:\x22t2\x22,\x22description\x22:\x22d2\x22,\x22impact\x22:2,\x22priority\x22:\x22low\x22,\x22actions\x22:[],\x22requiresPermission\x22:false,\x22isAutomated\x22:true\x7d]"

/-- A provider environment in which the battery level read succeeds with the
out-of-contract value 1.5 and everything else behaves normally. -/
def envBadBattery : CollectEnv :=
  { modelName := .ok (some "Pixel")
    osVersionRead := .ok (some "14")
    osName := .ok (some "Android")
    batteryLevelRead := .ok (3/2)
    batteryStateRead := .ok .full
    freeDiskRead := .ok 0
    totalDiskRead := .ok 100
    appNameRead := .ok none
    appIdRead := .ok none
    isAndroid := false
    cpuRand := 0
    memRand := 0
    outerThrow := false }

/-- A provider environment in which every read succeeds with in-contract
values. -/
def envGood : CollectEnv :=
  { modelName := .ok (some "Pixel")
    osVersionRead := .ok (some "14")
    osName := .ok (some "Android")
    batteryLevelRead := .ok (1/2)
    batteryStateRead := .ok .unplugged
    freeDiskRead := .ok 50
    totalDiskRead := .ok 200
    appNameRead := .ok (some "BoostIQ Pro")
    appIdRead := .ok (some "com.boostiq.pro")
    isAndroid := true
    cpuRand := 10
    memRand := 10
    outerThrow := false }

/-- An environment in which the pipeline throws unexpectedly as a whole. -/
def envThrow : CollectEnv :=
  { envGood with outerThrow := true }

/-- An environment in which only the storage reads fail. -/
def envStorageFail : CollectEnv :=
  { envGood with freeDiskRead := .err, totalDiskRead := .err }

/-! ## Helper lemmas -/

theorem foldl_add_impact (l : List SystemAnalysis) (a : ℚ) :
    l.foldl (fun sum o => sum + o.impact) a = a + sumImpacts l := by
  induction l generalizing a with
  | nil => simp [sumImpacts]
  | cons x xs ih => simp [sumImpacts, ih, List.foldl_cons]; ring

theorem gainsStep_eq (acc : ℚ × ℚ × ℚ) (o : SystemAnalysis) :
    gainsStep acc o =
      (acc.1 + memoryWeight o, acc.2.1 + batteryWeight o, acc.2.2 + storageWeight o) := by
  unfold gainsStep memoryWeight batteryWeight storageWeight
  by_cases h1 : typeHas o "memory" = true <;>
    by_cases h2 : typeHas o "battery" = true <;>
      by_cases h3 : typeHas o "storage" = true <;>
        simp [h1, h2, h3]

theorem foldl_gainsStep (l : List SystemAnalysis) (a b c : ℚ) :
    l.foldl gainsStep (a, b, c) =
      (a + memoryImpactSpec l, b + batteryImpactSpec l, c + storageImpactSpec l) := by
  induction l generalizing a b c with
  | nil => simp [memoryImpactSpec, batteryImpactSpec, storageImpactSpec]
  | cons x xs ih =>
    simp only [List.foldl_cons, gainsStep_eq, ih, Prod.mk.injEq,
      memoryImpactSpec, batteryImpactSpec, storageImpactSpec, List.map_cons, List.sum_cons]
    refine ⟨by ring, by ring, by ring⟩

theorem jsRound_nonneg (q : ℚ) (h : 0 ≤ q) : 0 ≤ jsRound q := by
  unfold jsRound
  have : (0 : ℤ) = Int.floor (0 : ℚ) := by simp
  rw [this]
  exact Int.floor_le_floor (by linarith)

theorem jsRound_le_hundred (q : ℚ) (h : q ≤ 100) : jsRound q ≤ 100 := by
  unfold jsRound
  have h2 : Int.floor (q + 1/2) ≤ Int.floor ((201 : ℚ)/2) :=
    Int.floor_le_floor (by linarith)
  have h3 : Int.floor ((201 : ℚ)/2) = 100 := by
    rw [Int.floor_eq_iff]
    norm_num
  omega

theorem isTruthy_eq_strNonempty (o : Option JsonValue) (h : stringishOpt o = true) :
    isTruthy o = strNonempty o := by
  cases o with
  | none => rfl
  | some v =>
    cases v with
    | null => rfl
    | str s => rfl
    | bool b => simp [stringishOpt] at h
    | num q => simp [stringishOpt] at h
    | arr l => simp [stringishOpt] at h
    | obj l => simp [stringishOpt] at h

/-! ## Claim theorems -/

/-- C6: for every recommendation list, `calculateGains` adds each impact to
the memory, battery or storage bucket by the first case-insensitive
substring match of its type (a recommendation matching none contributes
impact times 0.5, 0.3 and 0.2 to the three buckets), and returns exactly
round(memoryImpact * 3)MB, round(batteryImpact * 0.25)%, and
round(storageImpact * 10)MB. -/
theorem calculateGains_bucket_formula (opts : List SystemAnalysis) :
    calculateGains opts =
      { memoryGain := toString (jsRound (memoryImpactSpec opts * 3)) ++ "MB"
        batteryGain := toString (jsRound (batteryImpactSpec opts * (1/4))) ++ "%"
        storageGain := toString (jsRound (storageImpactSpec opts * 10)) ++ "MB" } := by
  unfold calculateGains
  rw [foldl_gainsStep]
  simp

/-- C7: for every result any of the assembler paths returns (the V2
pipeline on any gateway outcome, the V1 pipeline whenever it returns a
result, the explicit fallback and mock shapes, and the mock service),
highPriorityCount counts the high-priority recommendations and
automatedActionsCount counts the automated ones. -/
theorem summary_counts_invariant :
    (∀ opts ts, countsOk (assembleSuccess opts ts)) ∧
    (∀ gw ts, countsOk (getAdvancedAIOptimizationsV2 gw ts)) ∧
    (∀ isSnack gw ts r, getAdvancedAIOptimizationsV1 isSnack gw ts = some r → countsOk r) ∧
    (∀ m ts, countsOk (getMockAIOptimizations m ts)) := by
  have hsucc : ∀ opts ts, countsOk (assembleSuccess opts ts) := by
    intro opts ts
    unfold countsOk assembleSuccess
    constructor <;> simp [List.countP_eq_length_filter]
  have hfallV2 : ∀ ts, countsOk (fallbackResultV2 ts) := by
    intro ts
    exact ⟨rfl, rfl⟩
  refine ⟨hsucc, ?_, ?_, ?_⟩
  · intro gw ts
    cases gw with
    | error m => exact hfallV2 ts
    | ok content =>
      cases hP : parseAIResponse content with
      | error e =>
        simp only [getAdvancedAIOptimizationsV2, hP]
        exact hfallV2 ts
      | ok records =>
        simp only [getAdvancedAIOptimizationsV2, hP]
        exact hsucc _ ts
  · intro isSnack gw ts r hr
    cases gw with
    | error m =>
      simp only [getAdvancedAIOptimizationsV1] at hr
      cases hr
      exact ⟨rfl, rfl⟩
    | ok content =>
      simp only [getAdvancedAIOptimizationsV1] at hr
      cases isSnack with
      | false => simp at hr
      | true =>
        simp at hr
        subst hr
        exact ⟨rfl, rfl⟩
  · intro m ts
    unfold countsOk getMockAIOptimizations
    by_cases h1 : m.memoryUsage > 70 <;>
      by_cases h2 : m.batteryLevel < 30 <;>
        by_cases h3 : m.storageUsed > 85 <;>
          by_cases h4 : m.memoryUsage > 50 <;>
            simp [h1, h2, h3, h4] <;> decide

/-- C7 witness: the V1 pipeline instantiated at a failing gateway. -/
theorem summary_counts_invariant_witness :
    countsOk (errorFallbackResultV1 "boom" "t") :=
  summary_counts_invariant.2.2.1 false (.error "boom") "t" (errorFallbackResultV1 "boom" "t") rfl

/-- C1 amended: totalImpact equals min(100, sum of impacts) on the mock path
and on the fixed fallback and Snack-mock results (whose sums never reach
100), but on the AI success path it is the plain, uncapped sum of impacts. -/
theorem totalImpact_policy :
    (∀ opts ts, (assembleSuccess opts ts).summary.totalImpact = sumImpacts opts) ∧
    (∀ m ts, (getMockAIOptimizations m ts).summary.totalImpact =
        min 100 (sumImpacts (getMockAIOptimizations m ts).optimizations)) ∧
    (∀ e ts, (errorFallbackResultV1 e ts).summary.totalImpact =
        min 100 (sumImpacts (errorFallbackResultV1 e ts).optimizations)) ∧
    (∀ ts, (fallbackResultV2 ts).summary.totalImpact =
        min 100 (sumImpacts (fallbackResultV2 ts).optimizations)) ∧
    (∀ ts, (snackMockResult ts).summary.totalImpact =
        min 100 (sumImpacts (snackMockResult ts).optimizations)) := by
  refine ⟨?_, ?_, ?_, ?_, ?_⟩
  · intro opts ts
    show opts.foldl (fun sum o => sum + o.impact) 0 = sumImpacts opts
    rw [foldl_add_impact, zero_add]
  · intro m ts
    by_cases h1 : m.memoryUsage > 70 <;>
      by_cases h2 : m.batteryLevel < 30 <;>
        by_cases h3 : m.storageUsed > 85 <;>
          by_cases h4 : m.memoryUsage > 50 <;>
            simp [getMockAIOptimizations, sumImpacts, h1, h2, h3, h4] <;>
              with_unfolding_all rfl
  · intro e ts
    with_unfolding_all rfl
  · intro ts
    with_unfolding_all rfl
  · intro ts
    with_unfolding_all rfl

/-- C1 counterexample: on the AI success path the V2 pipeline returns
totalImpact 120 for a reply whose impacts sum to 120, although
min(100, 120) = 100; the claimed cap does not hold there. -/
theorem totalImpact_uncapped_cex :
    (getAdvancedAIOptimizationsV2 (.ok contentC1) "t").success = true ∧
    (getAdvancedAIOptimizationsV2 (.ok contentC1) "t").summary.totalImpact = 120 ∧
    sumImpacts (getAdvancedAIOptimizationsV2 (.ok contentC1) "t").optimizations = 120 ∧
    min (100 : ℚ) 120 = 100 ∧
    (120 : ℚ) ≠ 100 := by
  refine ⟨?_, ?_, ?_, ?_, ?_⟩
  · with_unfolding_all rfl
  · with_unfolding_all rfl
  · with_unfolding_all rfl
  · with_unfolding_all rfl
  · decide

/-- C2 amended: the FIRST variant returns the claimed degraded shape — one
Error Recovery recommendation with impact 5, priority medium, not
automated, and the error message embedded in the result message — while
the SECOND variant returns success=false with one Basic System
Optimization recommendation (impact 15, priority medium, automated) and a
fixed message that does not embed the error text. -/
theorem degraded_result_shapes :
    (∀ e ts, (errorFallbackResultV1 e ts).success = false ∧
        (errorFallbackResultV1 e ts).optimizations =
          [{ type := "Error Recovery"
             description := "An error occurred: " ++ e
             impact := 5
             priority := "medium"
             actions := ["Try again later", "Check internet connection"]
             requiresPermission := false
             isAutomated := false }] ∧
        (errorFallbackResultV1 e ts).message = "AI response not available: " ++ e) ∧
    (∀ isSnack m ts, getAdvancedAIOptimizationsV1 isSnack (.error m) ts =
        some (errorFallbackResultV1 m ts)) ∧
    (∀ m ts, getAdvancedAIOptimizationsV2 (.error m) ts = fallbackResultV2 ts) ∧
    (∀ c e ts, parseAIResponse c = .error e →
        getAdvancedAIOptimizationsV2 (.ok c) ts = fallbackResultV2 ts) ∧
    (∀ ts, (fallbackResultV2 ts).success = false ∧
        (fallbackResultV2 ts).optimizations.length = 1 ∧
        (fallbackResultV2 ts).message = "AI response not available right now") := by
  refine ⟨?_, ?_, ?_, ?_, ?_⟩
  · intro e ts
    exact ⟨rfl, rfl, rfl⟩
  · intro isSnack m ts
    rfl
  · intro m ts
    rfl
  · intro c e ts h
    simp only [getAdvancedAIOptimizationsV2, h]
  · intro ts
    exact ⟨rfl, rfl, rfl⟩

/-- C2 witness: a reply without JSON fails to parse and sends the V2
pipeline to its fallback result. -/
theorem degraded_result_shapes_witness :
    getAdvancedAIOptimizationsV2 (.ok "no json at all") "t" = fallbackResultV2 "t" :=
  degraded_result_shapes.2.2.2.1 "no json at all"
    "Failed to parse AI response: No JSON content found in response" "t"
    (by with_unfolding_all rfl)

/-- C2 counterexample: on a gateway failure the SECOND variant returns a
single Basic System Optimization recommendation with impact 15, automated,
and a fixed message that does not contain the error text — not the claimed
Error Recovery shape with impact 5. -/
theorem degraded_shape_v2_cex :
    getAdvancedAIOptimizationsV2 (.error "network down") "t" = fallbackResultV2 "t" ∧
    (fallbackResultV2 "t").optimizations.map SystemAnalysis.type =
      ["Basic System Optimization"] ∧
    ("Basic System Optimization" : String) ≠ "Error Recovery" ∧
    (fallbackResultV2 "t").optimizations.map SystemAnalysis.impact = [15] ∧
    ((15 : ℚ) ≠ 5) ∧
    (fallbackResultV2 "t").optimizations.map SystemAnalysis.isAutomated = [true] ∧
    (fallbackResultV2 "t").message = "AI response not available right now" ∧
    listHasSub "network down".toList (fallbackResultV2 "t").message.toList = false := by
  refine ⟨rfl, rfl, ?_, rfl, ?_, rfl, rfl, ?_⟩
  · decide
  · decide
  · decide

/-- C8 amended: the FIRST variant races the network call against a 15000 ms
timer — a call settling strictly before the deadline determines the outcome
(success passes through, a rejection is wrapped as a transport failure) and
a call still pending strictly after the deadline loses to the Timeout
rejection — while the SECOND variant has no timer at all: its outcome is
the network outcome regardless of the elapsed time. -/
theorem gateway_timeout_race :
    (∀ t a, t < 15000 → raceOutcomeV1 t a = a) ∧
    (∀ t a, 15000 < t →
        raceOutcomeV1 t a = .failure "API request timed out after 15 seconds") ∧
    (∀ t s, t < 15000 → gatewayV1 t (.success s) = .ok s) ∧
    (∀ t m, t < 15000 →
        gatewayV1 t (.failure m) = .error ("API request failed: " ++ m)) ∧
    (∀ t a, 15000 < t →
        gatewayV1 t a = .error "API request failed: API request timed out after 15 seconds") ∧
    (∀ t t2 a, gatewayV2 t a = gatewayV2 t2 a) := by
  have hrace : ∀ (t : ℚ) a, t < 15000 → raceOutcomeV1 t a = a := by
    intro t a h
    unfold raceOutcomeV1
    rw [if_pos h]
  have hracelate : ∀ (t : ℚ) a, 15000 < t →
      raceOutcomeV1 t a = .failure "API request timed out after 15 seconds" := by
    intro t a h
    unfold raceOutcomeV1
    rw [if_neg (by linarith)]
  refine ⟨hrace, hracelate, ?_, ?_, ?_, ?_⟩
  · intro t s h
    unfold gatewayV1
    rw [hrace t _ h]
  · intro t m h
    unfold gatewayV1
    rw [hrace t _ h]
  · intro t a h
    unfold gatewayV1
    rw [hracelate t a h]
    rfl
  · intro t t2 a
    cases a <;> rfl

/-- C8 witness: the race instantiated at settle times 1000 ms and 20000 ms. -/
theorem gateway_timeout_race_witness :
    raceOutcomeV1 1000 (.success "x") = .success "x" ∧
    raceOutcomeV1 20000 (.success "x") = .failure "API request timed out after 15 seconds" ∧
    gatewayV1 1000 (.success "x") = .ok "x" ∧
    gatewayV1 1000 (.failure "refused") = .error ("API request failed: " ++ "refused") ∧
    gatewayV1 20000 (.success "x") =
      .error "API request failed: API request timed out after 15 seconds" :=
  ⟨gateway_timeout_race.1 1000 _ (by norm_num),
   gateway_timeout_race.2.1 20000 _ (by norm_num),
   gateway_timeout_race.2.2.1 1000 "x" (by norm_num),
   gateway_timeout_race.2.2.2.1 1000 "refused" (by norm_num),
   gateway_timeout_race.2.2.2.2.1 20000 _ (by norm_num)⟩

/-- C8 counterexample: the SECOND variant still returns the network reply
when it settles at 20000 ms, past the claimed 15-second deadline, instead
of failing with the Timeout error; it differs there from the racing first
variant. -/
theorem gateway_v2_no_timeout_cex :
    gatewayV2 20000 (.success "late reply") = .ok "late reply" ∧
    (Except.ok "late reply" : Except String String) ≠
      .error "API request timed out after 15 seconds" ∧
    gatewayV2 20000 (.success "late reply") ≠ gatewayV1 20000 (.success "late reply") := by
  refine ⟨rfl, ?_, ?_⟩
  · simp
  · have h : ¬((20000 : ℚ) < 15000) := by norm_num
    simp [gatewayV1, gatewayV2, raceOutcomeV1, h]

/-- C4 counterexample: a record whose type is the number 1 is kept by
`parseAIResponse` (truthiness), although its type is not a non-empty
string, so it is not a valid Recommendation in the sense of the claim. -/
theorem validity_filter_truthiness_cex :
    parseAIResponse contentC4 = .ok [recC4] ∧
    isValidOpt recC4 = true ∧
    specValidRecommendation recC4 = false := by
  refine ⟨?_, ?_, ?_⟩
  · with_unfolding_all rfl
  · with_unfolding_all rfl
  · with_unfolding_all rfl

/-- C4 amended: the validation stage of `parseAIResponse` keeps exactly the
records passing the source filter (in order, unmodified) and fails exactly
when none survive; the filter checks JavaScript truthiness of type and
description — which coincides with being a non-empty string whenever those
fields are absent, null or strings, but also accepts truthy non-string
values — and a candidate list containing a null element instead aborts the
parse with a TypeError. -/
theorem parse_validation_stage :
    (∀ c l, parsedCandidates c = some l → parseAIResponse c = validatePhase l) ∧
    (∀ l, (∀ v ∈ l, isJsonNull v = false) →
        validatePhase l =
          if (l.filter isValidOpt).isEmpty then
            Except.error "Failed to parse AI response: No valid optimizations found in response"
          else Except.ok (l.filter isValidOpt)) ∧
    (∀ v, typeDescStringish v = true → isValidOpt v = specValidRecommendation v) := by
  refine ⟨?_, ?_, ?_⟩
  · intro c l h
    unfold parsedCandidates at h
    cases hE : extractJson c with
    | none => rw [hE] at h; simp at h
    | some m =>
      rw [hE] at h
      simp only [Option.bind] at h
      simp only [parseAIResponse, hE, h]
  · intro l hl
    have hany : l.any isJsonNull = false := by
      simp only [List.any_eq_false]
      intro x hx
      simp [hl x hx]
    simp [validatePhase, hany]
  · intro v h
    unfold typeDescStringish at h
    rw [Bool.and_eq_true] at h
    unfold isValidOpt specValidRecommendation
    rw [isTruthy_eq_strNonempty _ h.1, isTruthy_eq_strNonempty _ h.2]

/-- C4 witness: the amended statement instantiated at the candidate list of
the reply "[1]" and at the null record. -/
theorem parse_validation_stage_witness :
    parseAIResponse "[1]" = validatePhase [JsonValue.num 1] ∧
    validatePhase [JsonValue.num 1] =
      (if (([JsonValue.num 1].filter isValidOpt).isEmpty) then
         Except.error "Failed to parse AI response: No valid optimizations found in response"
       else Except.ok ([JsonValue.num 1].filter isValidOpt)) ∧
    isValidOpt JsonValue.null = specValidRecommendation JsonValue.null :=
  ⟨parse_validation_stage.1 "[1]" [JsonValue.num 1] (by with_unfolding_all rfl),
   parse_validation_stage.2.1 [JsonValue.num 1]
     (by intro v hv; simp at hv; subst hv; rfl),
   parse_validation_stage.2.2 JsonValue.null rfl⟩

/-- C5 amended: on direct-parse failure the repairs are applied exactly in
the order (a) object separators, (b) trailing commas before brackets,
(c) trailing commas before braces, (d) wrapping, and the parse is retried
exactly once; the missing-comma and trailing-comma malformations of a
serialization recover the same records as the well-formed equivalent when
no string field contains a repair pattern — but the repairs rewrite the
whole text, string literals included, so the recovery is not exact in
general (see the counterexample). -/
theorem repair_retry_order :
    (∀ s, directParse s = none →
        tryParsePhase s =
          repairedArrayParse
            (wrapIfNoBracket (fixTrailingObjComma (fixTrailingArrComma
              (fixObjectSeparators s))))) ∧
    parseAIResponse missSafeC5 = parseAIResponse wellSafeC5 ∧
    parseAIResponse trailSafeC5 = parseAIResponse wellSafeC5 ∧
    parseAIResponse wellSafeC5 = .ok [recC5X, recC5Y] := by
  refine ⟨?_, ?_, ?_, ?_⟩
  · intro s h
    simp only [tryParsePhase, repairJson, h]
  · with_unfolding_all rfl
  · with_unfolding_all rfl
  · with_unfolding_all rfl

/-- C5 witness: the repair order instantiated at a failing direct parse. -/
theorem repair_retry_order_witness :
    tryParsePhase "[1,]" =
      repairedArrayParse
        (wrapIfNoBracket (fixTrailingObjComma (fixTrailingArrComma
          (fixObjectSeparators "[1,]")))) :=
  repair_retry_order.1 "[1,]" (by with_unfolding_all rfl)

/-- C5 counterexample: the separator repair rewrites the interior of string
literals, so the missing-comma input recovers records that differ from the
well-formed equivalent (the first type string gains a comma). -/
theorem repair_mangles_string_contents_cex :
    parseAIResponse missC5 = .ok [recC5Aprime, recC5Y] ∧
    parseAIResponse wellC5 = .ok [recC5A, recC5Y] ∧
    recC5Aprime ≠ recC5A ∧
    parseAIResponse missC5 ≠ parseAIResponse wellC5 := by
  have h1 : parseAIResponse missC5 = .ok [recC5Aprime, recC5Y] := by
    with_unfolding_all rfl
  have h2 : parseAIResponse wellC5 = .ok [recC5A, recC5Y] := by
    with_unfolding_all rfl
  have h3 : recC5Aprime ≠ recC5A := by
    unfold recC5Aprime recC5A
    simp
  refine ⟨h1, h2, h3, ?_⟩
  rw [h1, h2]
  simp [h3]

theorem batteryPair_fst_bounds (e : CollectEnv)
    (hb : ∀ l, e.batteryLevelRead = .ok l → 0 ≤ l ∧ l ≤ 1) :
    0 ≤ (batteryPair e).1 ∧ (batteryPair e).1 ≤ 1 := by
  unfold batteryPair
  cases hbl : e.batteryLevelRead with
  | err => norm_num
  | ok l =>
    cases hbs : e.batteryStateRead with
    | err => norm_num
    | ok s => exact hb l hbl

theorem storagePair_bounds (e : CollectEnv)
    (hs : ∀ f t, e.freeDiskRead = .ok f → e.totalDiskRead = .ok t →
        0 < t ∧ 0 ≤ f ∧ f ≤ t) :
    0 < (storagePair e).1 ∧ 0 ≤ (storagePair e).2 ∧ (storagePair e).2 ≤ 100 := by
  unfold storagePair
  cases hf : e.freeDiskRead with
  | err => norm_num
  | ok f =>
    cases ht : e.totalDiskRead with
    | err => norm_num
    | ok t =>
      obtain ⟨htpos, hfpos, hft⟩ := hs f t hf ht
      refine ⟨htpos, ?_, ?_⟩
      · have h1 : 0 ≤ (t - f) / t := div_nonneg (by linarith) (le_of_lt htpos)
        nlinarith
      · have h1 : (t - f) / t ≤ 1 := (div_le_one htpos).mpr (by linarith)
        nlinarith

/-- C3 amended: `collectDeviceMetrics` is total (never throws) and its
synthetic CPU and memory percentages always lie in [0,100]; the battery
and storage percentages lie in [0,100] and the total storage is positive
whenever each of those providers either throws (taking its default) or
returns in-contract values (battery level in [0,1]; positive total disk
with free between 0 and total) — but out-of-contract provider return
values pass through unclamped (see the counterexample). -/
theorem collect_metrics_ranges (e : CollectEnv)
    (hb : ∀ l, e.batteryLevelRead = .ok l → 0 ≤ l ∧ l ≤ 1)
    (hs : ∀ f t, e.freeDiskRead = .ok f → e.totalDiskRead = .ok t →
        0 < t ∧ 0 ≤ f ∧ f ≤ t) :
    0 ≤ (collectDeviceMetrics e).cpuUsage ∧ (collectDeviceMetrics e).cpuUsage ≤ 100 ∧
    0 ≤ (collectDeviceMetrics e).memoryUsage ∧ (collectDeviceMetrics e).memoryUsage ≤ 100 ∧
    0 ≤ (collectDeviceMetrics e).batteryLevel ∧ (collectDeviceMetrics e).batteryLevel ≤ 100 ∧
    0 ≤ (collectDeviceMetrics e).storageUsed ∧ (collectDeviceMetrics e).storageUsed ≤ 100 ∧
    0 < (collectDeviceMetrics e).totalStorage := by
  rcases hpair : batteryPair e with ⟨lvl, st⟩
  rcases hsp : storagePair e with ⟨total, pct⟩
  have hlvl : 0 ≤ lvl ∧ lvl ≤ 1 := by
    have h := batteryPair_fst_bounds e hb
    rw [hpair] at h
    exact h
  have hst : 0 < total ∧ 0 ≤ pct ∧ pct ≤ 100 := by
    have h := storagePair_bounds e hs
    rw [hsp] at h
    exact h
  cases hout : e.outerThrow with
  | true =>
    simp only [collectDeviceMetrics, hout, if_true, fallbackMetrics]
    norm_num
  | false =>
    have hcpu := e.cpuRand.isLt
    have hmem := e.memRand.isLt
    simp only [collectDeviceMetrics, hout, if_false, hpair, hsp, Bool.false_eq_true]
    refine ⟨by omega, by omega, by omega, by omega, ?_, ?_, ?_, ?_, hst.1⟩
    · exact jsRound_nonneg _ (by nlinarith [hlvl.1])
    · exact jsRound_le_hundred _ (by nlinarith [hlvl.2])
    · exact jsRound_nonneg _ hst.2.1
    · exact jsRound_le_hundred _ hst.2.2

/-- C3 witness: the range statement instantiated at an environment whose
providers all succeed with in-contract values. -/
theorem collect_metrics_ranges_witness :
    0 ≤ (collectDeviceMetrics envGood).cpuUsage ∧
    (collectDeviceMetrics envGood).cpuUsage ≤ 100 ∧
    0 ≤ (collectDeviceMetrics envGood).memoryUsage ∧
    (collectDeviceMetrics envGood).memoryUsage ≤ 100 ∧
    0 ≤ (collectDeviceMetrics envGood).batteryLevel ∧
    (collectDeviceMetrics envGood).batteryLevel ≤ 100 ∧
    0 ≤ (collectDeviceMetrics envGood).storageUsed ∧
    (collectDeviceMetrics envGood).storageUsed ≤ 100 ∧
    0 < (collectDeviceMetrics envGood).totalStorage :=
  collect_metrics_ranges envGood
    (by intro l h; injection h with h; subst h; norm_num)
    (by intro f t hf ht; injection hf with hf; injection ht with ht
        subst hf; subst ht; norm_num)

/-- C3 counterexample: a battery provider returning the out-of-contract
level 1.5 yields a batteryLevel of 150 — the snapshot percentages are not
clamped to [0,100]. -/
theorem battery_not_clamped_cex :
    (collectDeviceMetrics envBadBattery).batteryLevel = 150 ∧
    ¬((collectDeviceMetrics envBadBattery).batteryLevel ≤ 100) := by
  have h1 : (collectDeviceMetrics envBadBattery).batteryLevel = 150 := by
    with_unfolding_all rfl
  refine ⟨h1, ?_⟩
  rw [h1]
  norm_num

/-- C9: whenever the collection pipeline throws unexpectedly as a whole,
`collectDeviceMetrics` still returns the hard-coded fallback snapshot with
cpu 30, memory 45, battery 75, storage 50 and a 128 GB total. -/
theorem collect_outer_fallback (e : CollectEnv) (h : e.outerThrow = true) :
    collectDeviceMetrics e = fallbackMetrics e ∧
    (collectDeviceMetrics e).cpuUsage = 30 ∧
    (collectDeviceMetrics e).memoryUsage = 45 ∧
    (collectDeviceMetrics e).batteryLevel = 75 ∧
    (collectDeviceMetrics e).batteryState = "unknown" ∧
    (collectDeviceMetrics e).storageUsed = 50 ∧
    (collectDeviceMetrics e).totalStorage = 128 * 1024 * 1024 * 1024 ∧
    (collectDeviceMetrics e).totalStorage = 137438953472 := by
  have h0 : collectDeviceMetrics e = fallbackMetrics e := by
    unfold collectDeviceMetrics
    rw [h]
    rfl
  rw [h0]
  refine ⟨rfl, rfl, rfl, rfl, rfl, rfl, rfl, by norm_num [fallbackMetrics]⟩

/-- C9 witness: the fallback statement instantiated at a throwing pipeline. -/
theorem collect_outer_fallback_witness :
    collectDeviceMetrics envThrow = fallbackMetrics envThrow ∧
    (collectDeviceMetrics envThrow).cpuUsage = 30 ∧
    (collectDeviceMetrics envThrow).memoryUsage = 45 ∧
    (collectDeviceMetrics envThrow).batteryLevel = 75 ∧
    (collectDeviceMetrics envThrow).batteryState = "unknown" ∧
    (collectDeviceMetrics envThrow).storageUsed = 50 ∧
    (collectDeviceMetrics envThrow).totalStorage = 128 * 1024 * 1024 * 1024 ∧
    (collectDeviceMetrics envThrow).totalStorage = 137438953472 :=
  collect_outer_fallback envThrow rfl

/-- C10: when only the storage reads fail (and the pipeline does not throw
as a whole), the snapshot keeps the defaulted storageUsed of 50 but its
totalStorage is the initial placeholder 1, not the 128 GB of the full
fallback. -/
theorem storage_failure_placeholder_total (e : CollectEnv)
    (hout : e.outerThrow = false)
    (hfail : e.freeDiskRead = .err ∨ e.totalDiskRead = .err) :
    (collectDeviceMetrics e).storageUsed = 50 ∧
    (collectDeviceMetrics e).totalStorage = 1 := by
  have hsp : storagePair e = (1, 50) := by
    unfold storagePair
    rcases hfail with h | h
    · simp [h]
    · cases hf : e.freeDiskRead with
      | err => simp [h, hf]
      | ok f => simp [h, hf]
  rcases hpair : batteryPair e with ⟨lvl, st⟩
  simp only [collectDeviceMetrics, hout, if_false, hsp, hpair, Bool.false_eq_true]
  constructor
  · with_unfolding_all rfl
  · trivial

/-- C10 witness: the placeholder-total statement instantiated at failing
storage reads. -/
theorem storage_failure_placeholder_total_witness :
    (collectDeviceMetrics envStorageFail).storageUsed = 50 ∧
    (collectDeviceMetrics envStorageFail).totalStorage = 1 :=
  storage_failure_placeholder_total envStorageFail rfl (Or.inl rfl)

end BoostIQ
